import Mathlib

/-!
Verification development for the JobForge scraper service.

The embedding models `src/server.js`: the request handler registered on the
scrape route, the supplier classifier, the login dispatch, and the five
extraction strategies.  Effectful browser-automation steps (launch, goto,
page.evaluate, screenshot, close, the two login flows) are modelled as
abstract steps whose success or failure is supplied by an environment of
injected fault outcomes, so that every exit path of the handler becomes a
pure function of the request and that environment.  JavaScript string
operations used by the code (truthiness, includes, toLowerCase, trim,
substring, join) are modelled explicitly over character lists.
-/

set_option maxHeartbeats 1000000

namespace JobForge

/-- JavaScript truthiness of an optional string value: an absent value
(`undefined` or `null`) and the empty string are falsy, every other string
is truthy. -/
def jsTruthy : Option String → Bool
  | none => false
  | some s => s != ""

/-- Model of the JavaScript expression `x?.length || 0` on an optional
string: absent values contribute length 0. -/
def optLen : Option String → Nat
  | none => 0
  | some s => s.length

/-- Character-list test that `needle` occurs at the very start of the second
list; the building block of the substring search below. -/
def hasPrefixList : List Char → List Char → Bool
  | [], _ => true
  | _ :: _, [] => false
  | a :: as, b :: bs => a == b && hasPrefixList as bs

/-- Character-list test that `needle` occurs contiguously somewhere in the
second list. -/
def hasSubList (needle : List Char) : List Char → Bool
  | [] => hasPrefixList needle []
  | l@(_ :: bs) => hasPrefixList needle l || hasSubList needle bs

/-- Model of the JavaScript `String.prototype.includes` substring test. -/
def jsIncludes (s sub : String) : Bool := hasSubList sub.data s.data

/-- Model of the JavaScript `String.prototype.toLowerCase` (ASCII case
folding, applied character by character). -/
def jsToLower (s : String) : String := String.mk (s.data.map Char.toLower)

/-- The whitespace characters stripped by the JavaScript `trim`. -/
def isWs (c : Char) : Bool :=
  c == ' ' || c == '\t' || c == '\n' || c == '\r' || c == '\x0b' || c == '\x0c'

/-- Model of the JavaScript `String.prototype.trim`: drop leading and
trailing whitespace. -/
def jsTrim (s : String) : String :=
  String.mk (((s.data.dropWhile isWs).reverse.dropWhile isWs).reverse)

/-- The U+0027 character, built from its code point so the label below can
be written without an inline quote character. -/
def apos : Char := Char.ofNat 39

/-- The supplier label the source spells with an escaped quote between the
`e` and the `s`. -/
def lowesLabel : String := String.mk [ 'L', 'o', 'w', 'e', apos, 's']

/-- server.js lines 154-160: `detectSupplier`, the pure supplier classifier
keyed on substring matches against the request URL. -/
def detectSupplier (url : String) : String :=
  if jsIncludes url "richelieu.com" then "Richelieu"
  else if jsIncludes url "homedepot.com" || jsIncludes url "homedepot.ca" then "Home Depot"
  else if jsIncludes url "lowes.com" || jsIncludes url "lowes.ca" then lowesLabel
  else if jsIncludes url "amazon.com" || jsIncludes url "amazon.ca" then "Amazon"
  else "Generic"

/-- A DOM element as the extraction code observes it: its text content, its
serialized HTML and its image source attribute. -/
structure Element where
  textContent : String
  outerHTML : String
  src : String
deriving DecidableEq

/-- A rendered page as the extraction code observes it: `query` models
`document.querySelector` (first match or null), `queryAll` models
`document.querySelectorAll` in document order, `href` models
`window.location.href`. -/
structure Page where
  query : String → Option Element
  queryAll : String → List Element
  href : String

/-- server.js lines 233-236 (and the identical local helpers in the other
scrapers): `getTextContent`, the trimmed text of the first match of a
selector, or null. -/
def getTextContent (page : Page) (sel : String) : Option String :=
  match page.query sel with
  | some e => some (jsTrim e.textContent)
  | none => none

/-- server.js lines 238-241: `getElementHTML`, the serialized HTML of the
first match of a selector, or null. -/
def getElementHTML (page : Page) (sel : String) : Option String :=
  (page.query sel).map Element.outerHTML

/-- A page with no matching elements at all, used to state the
missing-everything behaviour of the strategies. -/
def emptyPage (href : String) : Page :=
  { query := fun _ => none, queryAll := fun _ => [], href := href }

/-- The predicate of the MSRP scan, server.js line 264: the lowercased text
of a price-block line item mentions msrp, list or retail. -/
def msrpMatches (e : Element) : Bool :=
  let text := jsToLower e.textContent
  jsIncludes text "msrp" || jsIncludes text "list" || jsIncludes text "retail"

/-- server.js lines 262-268: the for-loop over the price-block line items,
taking the trimmed text of the first item matching `msrpMatches` and
breaking. -/
def msrpScanLoop : List Element → Option String
  | [] => none
  | item :: rest =>
    if msrpMatches item then some (jsTrim item.textContent) else msrpScanLoop rest

/-- The debug snippets attached to a Richelieu record, server.js
lines 305-308. -/
structure RichelieuDebug where
  priceHTML : String
  skuHTML : String
deriving DecidableEq

/-- The record produced by the Richelieu strategy, server.js
lines 294-309. -/
structure RichelieuRecord where
  name : Option String
  sku : Option String
  price : Option String
  msrp : Option String
  description : Option String
  brand : Option String
  imageUrl : Option String
  categoryPath : String
  url : String
  debug : RichelieuDebug
deriving DecidableEq

/-- server.js line 306 and 307: a present snippet is truncated to its first
500 characters, an absent or empty one is replaced by a fixed message. -/
def debugSnippet (html : Option String) (missingMsg : String) : String :=
  match html with
  | some h => if h != "" then h.take 500 else missingMsg
  | none => missingMsg

/-- server.js lines 229-326: `scrapeRichelieu`, the in-page extraction for
Richelieu product pages (the pure body of the `page.evaluate` call). -/
def scrapeRichelieu (page : Page) : RichelieuRecord :=
  let name := getTextContent page "h1.product-name, h1[itemprop=\"name\"], .product-title h1, h1"
  let sku := getTextContent page ".pms-PartNumber, [itemprop=\"sku\"], .product-sku, .product-code, .sku-number"
  let price0 := getTextContent page ".pms-Price, [itemprop=\"price\"], .product-price, .pms-PriceBlock_Main .pms-PriceBlock_BreaksPrice"
  let price := if jsTruthy price0 then price0 else
    getTextContent page ".your-price, .price-now, .price, [class*=\"price\"]"
  let priceBlockItems := page.queryAll ".pms-PriceBlock li"
  let msrp0 := if priceBlockItems.length > 0 then msrpScanLoop priceBlockItems else none
  let msrp := if jsTruthy msrp0 then msrp0 else
    getTextContent page ".list-price, .price-was, .msrp-price, .retail-price"
  let description := getTextContent page ".product-description, .product-details, [itemprop=\"description\"]"
  let brand := getTextContent page ".product-brand, .brand-name, [itemprop=\"brand\"]"
  let imageUrl := (page.query ".product-image img, .main-image img, img[itemprop=\"image\"]").map Element.src
  let categoryElements := page.queryAll ".breadcrumb a, nav.breadcrumb a"
  let categoryPath := String.intercalate " > " (categoryElements.map (fun el => jsTrim el.textContent))
  let priceHTML := getElementHTML page ".pms-Price, [itemprop=\"price\"], .product-price, .your-price, .price-now"
  let skuHTML := getElementHTML page ".pms-PartNumber, [itemprop=\"sku\"], .product-sku"
  { name := name, sku := sku, price := price, msrp := msrp,
    description := description, brand := brand, imageUrl := imageUrl,
    categoryPath := categoryPath, url := page.href,
    debug := { priceHTML := debugSnippet priceHTML "No price element found",
               skuHTML := debugSnippet skuHTML "No SKU element found" } }

/-- The record shape shared by the Home Depot, Lowe and Amazon strategies:
name, sku, price, brand, image and the page URL. -/
structure StoreRecord where
  name : Option String
  sku : Option String
  price : Option String
  brand : Option String
  imageUrl : Option String
  url : String
deriving DecidableEq

/-- server.js lines 329-357: `scrapeHomeDepot`. -/
def scrapeHomeDepot (page : Page) : StoreRecord :=
  { name := getTextContent page "h1.product-details__title, h1[data-testid=\"product-title\"]",
    sku := getTextContent page ".product-info-bar__detail--sku, [data-testid=\"product-sku\"]",
    price := getTextContent page "[data-testid=\"product-price\"], .price__dollars",
    brand := getTextContent page ".product-details__brand, [data-testid=\"product-brand\"]",
    imageUrl := (page.query ".mediagallery__mainimage img, [data-testid=\"product-image\"] img").map Element.src,
    url := page.href }

/-- server.js lines 360-388: `scrapeLowes`. -/
def scrapeLowes (page : Page) : StoreRecord :=
  { name := getTextContent page "h1.pdp-header, h1[itemprop=\"name\"]",
    sku := getTextContent page ".product-code, [itemprop=\"productID\"]",
    price := getTextContent page ".item-price, .price-format__main-price",
    brand := getTextContent page ".pdp-brand, [itemprop=\"brand\"]",
    imageUrl := (page.query ".main-image img, .pdp-image img").map Element.src,
    url := page.href }

/-- server.js lines 391-421: `scrapeAmazon`; the sku field is the literal
null on line 408. -/
def scrapeAmazon (page : Page) : StoreRecord :=
  { name := getTextContent page "#productTitle, h1.a-size-large",
    sku := none,
    price := getTextContent page ".a-price-whole, .a-price.a-text-price.a-size-medium",
    brand := getTextContent page "#bylineInfo, .po-brand .po-break-word",
    imageUrl := (page.query "#landingImage, #imgTagWrapperId img").map Element.src,
    url := page.href }

/-- The record produced by the generic strategy, server.js lines 442-449. -/
structure GenericRecord where
  name : Option String
  sku : Option String
  price : Option String
  description : Option String
  imageUrl : Option String
  url : String
deriving DecidableEq

/-- server.js lines 424-453: `scrapeGeneric`, the fallback strategy. -/
def scrapeGeneric (page : Page) : GenericRecord :=
  { name := getTextContent page "h1, .product-title, .product-name, [itemprop=\"name\"]",
    sku := getTextContent page ".sku, .product-code, .item-number, [itemprop=\"sku\"]",
    price := getTextContent page ".price, .product-price, .sale-price, [itemprop=\"price\"]",
    description := getTextContent page ".description, .product-description, [itemprop=\"description\"]",
    imageUrl := (page.query "img.product-image, img.main-image, [itemprop=\"image\"]").map Element.src,
    url := page.href }

/-- The credentials object of a scrape request, server.js lines 22-26 and
69-77; every field may be absent in the incoming JSON. -/
structure Credentials where
  supplierName : Option String
  username : Option String
  password : Option String
  loginUrl : Option String
deriving DecidableEq

/-- A scrape request as the handler reads it: the body fields `url` and
`credentials`, and the authorization header. -/
structure Request where
  url : Option String
  credentials : Option Credentials
  authHeader : Option String
deriving DecidableEq

/-- The sum of the product records the five strategies produce, tagged by
the branch of the dispatch switch on server.js lines 100-115. -/
inductive ProductData where
  | richelieu (r : RichelieuRecord)
  | homeDepot (r : StoreRecord)
  | lowes (r : StoreRecord)
  | amazon (r : StoreRecord)
  | generic (r : GenericRecord)
deriving DecidableEq

/-- The name field of whichever record was produced (used by the success
log on server.js line 127). -/
def ProductData.name : ProductData → Option String
  | .richelieu r => r.name
  | .homeDepot r => r.name
  | .lowes r => r.name
  | .amazon r => r.name
  | .generic r => r.name

/-- The sku field of whichever record was produced. -/
def ProductData.sku : ProductData → Option String
  | .richelieu r => r.sku
  | .homeDepot r => r.sku
  | .lowes r => r.sku
  | .amazon r => r.sku
  | .generic r => r.sku

/-- The price field of whichever record was produced. -/
def ProductData.price : ProductData → Option String
  | .richelieu r => r.price
  | .homeDepot r => r.price
  | .lowes r => r.price
  | .amazon r => r.price
  | .generic r => r.price

/-- server.js lines 100-115: the switch dispatching on the detected
supplier label to one extraction strategy. -/
def extractProduct (supplier : String) (page : Page) : ProductData :=
  if supplier = "Richelieu" then .richelieu (scrapeRichelieu page)
  else if supplier = "Home Depot" then .homeDepot (scrapeHomeDepot page)
  else if supplier = lowesLabel then .lowes (scrapeLowes page)
  else if supplier = "Amazon" then .amazon (scrapeAmazon page)
  else .generic (scrapeGeneric page)

/-- One console output line of the handler; constructor arguments carry
exactly the data the corresponding console call interpolates. -/
inductive LogEntry where
  | requestSummary (url : Option String) (hasCredentials : Bool)
      (supplierName : Option String) (username : Option String)
      (hasPassword : Bool) (passwordLength : Nat) (loginUrl : Option String)
  | unauthorizedLog
  | startingScrape (url : String)
  | loggingInto (supplierName : Option String)
  | loginComplete
  | loginFailed (msg : String)
  | navigating (url : String)
  | detectedSupplier (supplier : String)
  | scrapeSuccessful (name : Option String) (sku : Option String) (price : Option String)
  | scrapingError (msg : String)
deriving DecidableEq

/-- One lifecycle event of the handler, in the order it happens: browser
launch succeeded, a login flow was invoked, navigation to the target URL
started, the extraction evaluate returned, the screenshot was taken, a
`browser.close()` call was made, a close call resolved (the session is
released), and a response was sent to the caller. -/
inductive Event where
  | sessionCreated
  | loginRichelieuCalled
  | loginGenericCalled
  | navigationStarted
  | extracted
  | screenshotTaken
  | closeAttempt
  | sessionReleased
  | responded
deriving DecidableEq

/-- The body of the success response, server.js lines 132-137. -/
structure SuccessBody where
  data : ProductData
  screenshot : String
  supplierName : String
deriving DecidableEq

/-- The HTTP-level outcome of one request.  `unhandledRejection` is the
case where an exception escapes the async handler itself, so the handler
sends no response at all. -/
inductive Outcome where
  | ok (body : SuccessBody)
  | badRequest
  | unauthorized
  | serverError (details : String)
  | unhandledRejection (msg : String)
deriving DecidableEq

/-- The coarse kind of an outcome: success envelope, failure envelope, or
no envelope at all. -/
inductive OutcomeKind where
  | success
  | failure
  | hung
deriving DecidableEq

/-- Classify an outcome by kind. -/
def Outcome.kind : Outcome → OutcomeKind
  | .ok _ => .success
  | .unhandledRejection _ => .hung
  | _ => .failure

/-- The result of one run of the handler: the outcome, the console log and
the lifecycle events, both in order. -/
structure RunResult where
  outcome : Outcome
  log : List LogEntry
  events : List Event
deriving DecidableEq

/-- How the try block of the handler exits: with a success body, or with a
raised error message, remembering whether the browser variable was already
assigned (it decides whether the catch block closes it) and how many close
calls were already made inside the try block. -/
inductive TryExit where
  | success (body : SuccessBody)
  | raised (msg : String) (browserAssigned : Bool) (closesSoFar : Nat)
deriving DecidableEq

/-- The injected-fault environment: for each effectful browser step, `none`
means the step resolves and `some msg` means it rejects with that message.
The two login flows are whole-step effects here (their internal page
driving does not feed back into the handler beyond success or failure);
`page` is the DOM state the extraction strategies observe after
navigation, `screenshotData` the captured image, `secretEnv` the optional
scraper-secret environment variable, and `closeFault` gives the outcome of
the n-th `browser.close()` call of the request. -/
structure Env where
  secretEnv : Option String
  launchFault : Option String
  newContextFault : Option String
  newPageFault : Option String
  loginRichelieuFault : Option String
  loginGenericFault : Option String
  gotoFault : Option String
  evaluateFault : Option String
  screenshotFault : Option String
  closeFault : Nat → Option String
  page : Page
  screenshotData : String

/-- server.js lines 37-43: the bearer-token check against the configured
secret, with its fallback default. -/
def authOk (env : Env) (req : Request) : Bool :=
  match req.authHeader with
  | none => false
  | some h => h == "Bearer " ++ env.secretEnv.getD "default-secret"

/-- server.js line 73: the condition choosing the Richelieu login flow — a
truthy supplierName whose lowercasing contains the richelieu fragment. -/
def richelieuCredsBranch (c : Credentials) : Bool :=
  jsTruthy c.supplierName && jsIncludes (jsToLower (c.supplierName.getD "")) "richelieu"

/-- server.js lines 68-83: the guarded login step.  The outer condition
requires a credentials object with truthy username and password; inside, a
dedicated try absorbs any login error, logging it and falling through.
Returns the log lines and events this step contributes. -/
def loginPhase (env : Env) (creds : Option Credentials) : List LogEntry × List Event :=
  match creds with
  | none => ([], [])
  | some c =>
    if jsTruthy c.username && jsTruthy c.password then
      if richelieuCredsBranch c then
        match env.loginRichelieuFault with
        | none => ([.loggingInto c.supplierName, .loginComplete], [.loginRichelieuCalled])
        | some m => ([.loggingInto c.supplierName, .loginFailed m], [.loginRichelieuCalled])
      else if jsTruthy c.loginUrl then
        match env.loginGenericFault with
        | none => ([.loggingInto c.supplierName, .loginComplete], [.loginGenericCalled])
        | some m => ([.loggingInto c.supplierName, .loginFailed m], [.loginGenericCalled])
      else
        ([.loggingInto c.supplierName, .loginComplete], [])
    else ([], [])

/-- server.js lines 85-137: from the navigation to the target URL through
the fixed render wait, classification, extraction, screenshot, the
success-path close, and the success log.  Steps past a rejecting await do
not run. -/
def navPhase (env : Env) (u : String) : TryExit × List LogEntry × List Event :=
  match env.gotoFault with
  | some m => (.raised m true 0, [.navigating u], [.navigationStarted])
  | none =>
    let supplier := detectSupplier u
    match env.evaluateFault with
    | some m => (.raised m true 0, [.navigating u, .detectedSupplier supplier], [.navigationStarted])
    | none =>
      let productData := extractProduct supplier env.page
      match env.screenshotFault with
      | some m => (.raised m true 0, [.navigating u, .detectedSupplier supplier],
          [.navigationStarted, .extracted])
      | none =>
        match env.closeFault 0 with
        | some m => (.raised m true 1, [.navigating u, .detectedSupplier supplier],
            [.navigationStarted, .extracted, .screenshotTaken, .closeAttempt])
        | none =>
          (.success { data := productData, screenshot := env.screenshotData, supplierName := supplier },
           [.navigating u, .detectedSupplier supplier,
            .scrapeSuccessful productData.name productData.sku productData.price],
           [.navigationStarted, .extracted, .screenshotTaken, .closeAttempt, .sessionReleased])

/-- server.js lines 45-137: the try block — launch, context, page, the
guarded login step, then the navigation-to-success sequence.  A rejecting
launch leaves the browser variable unassigned; later rejections leave it
assigned. -/
def tryPhase (env : Env) (u : String) (creds : Option Credentials) :
    TryExit × List LogEntry × List Event :=
  match env.launchFault with
  | some m => (.raised m false 0, [.startingScrape u], [])
  | none =>
    match env.newContextFault with
    | some m => (.raised m true 0, [.startingScrape u], [.sessionCreated])
    | none =>
      match env.newPageFault with
      | some m => (.raised m true 0, [.startingScrape u], [.sessionCreated])
      | none =>
        let lp := loginPhase env creds
        let np := navPhase env u
        (np.1, [.startingScrape u] ++ lp.1 ++ np.2.1, [.sessionCreated] ++ lp.2 ++ np.2.2)

/-- server.js lines 18-151: the whole scrape request handler.  Validation
of the url field, then the bearer-token check, then the try block; the
catch block logs the error, closes the browser when it was assigned (a
rejection of that close escapes the handler), and sends the failure
envelope. -/
def handleScrape (env : Env) (req : Request) : RunResult :=
  let summary := LogEntry.requestSummary req.url req.credentials.isSome
    (req.credentials.bind Credentials.supplierName)
    (req.credentials.bind Credentials.username)
    (jsTruthy (req.credentials.bind Credentials.password))
    (optLen (req.credentials.bind Credentials.password))
    (req.credentials.bind Credentials.loginUrl)
  if jsTruthy req.url = false then
    { outcome := .badRequest, log := [summary], events := [.responded] }
  else if authOk env req = false then
    { outcome := .unauthorized, log := [summary, .unauthorizedLog], events := [.responded] }
  else
    let u := req.url.getD ""
    match tryPhase env u req.credentials with
    | (.success body, tlog, tev) =>
      { outcome := .ok body, log := [summary] ++ tlog, events := tev ++ [.responded] }
    | (.raised m bc k, tlog, tev) =>
      if bc then
        match env.closeFault k with
        | none =>
          { outcome := .serverError m, log := [summary] ++ tlog ++ [.scrapingError m],
            events := tev ++ [.closeAttempt, .sessionReleased, .responded] }
        | some cm =>
          { outcome := .unhandledRejection cm, log := [summary] ++ tlog ++ [.scrapingError m],
            events := tev ++ [.closeAttempt] }
      else
        { outcome := .serverError m, log := [summary] ++ tlog ++ [.scrapingError m],
          events := tev ++ [.responded] }

/-- An environment in which every browser step resolves: no injected
faults, an empty rendered page, the secret env variable unset. -/
def benignEnv : Env :=
  { secretEnv := none, launchFault := none, newContextFault := none,
    newPageFault := none, loginRichelieuFault := none, loginGenericFault := none,
    gotoFault := none, evaluateFault := none, screenshotFault := none,
    closeFault := fun _ => none, page := emptyPage "https://www.richelieu.com/p/1",
    screenshotData := "IMG" }

/-- Credentials with a Richelieu supplier name. -/
def demoCreds : Credentials :=
  { supplierName := some "Richelieu Hardware", username := some "buyer@acme.example",
    password := some "hunter2", loginUrl := none }

/-- A well-formed authorized request for a Richelieu product page. -/
def demoReq : Request :=
  { url := some "https://www.richelieu.com/p/1", credentials := some demoCreds,
    authHeader := some "Bearer default-secret" }

/-- Credentials with a non-Richelieu supplier name, no login URL, and a
seven-character username. -/
def credsUserA : Credentials :=
  { supplierName := some "Acme", username := some "alicexx",
    password := some "hunter2", loginUrl := none }

/-- The same credentials as `credsUserA` except for the username, which has
the same length and truthiness. -/
def credsUserB : Credentials :=
  { supplierName := some "Acme", username := some "bobcats",
    password := some "hunter2", loginUrl := none }

/-- An authorized request carrying `credsUserA`. -/
def reqUserA : Request :=
  { url := some "https://example.org/p", credentials := some credsUserA,
    authHeader := some "Bearer default-secret" }

/-- The same request as `reqUserA` except for the username inside the
credentials. -/
def reqUserB : Request :=
  { url := some "https://example.org/p", credentials := some credsUserB,
    authHeader := some "Bearer default-secret" }

/-- An authorized request without credentials. -/
def anonReq : Request :=
  { url := some "https://example.org/p", credentials := none,
    authHeader := some "Bearer default-secret" }

/-- A request whose url field is the empty string. -/
def emptyUrlReq : Request :=
  { url := some "", credentials := none, authHeader := some "Bearer default-secret" }

/-- An environment in which the Richelieu login flow rejects. -/
def loginFaultEnv : Env := { benignEnv with loginRichelieuFault := some "boom" }

/-- An environment in which navigation times out and every close call also
rejects. -/
def c9Env : Env :=
  { benignEnv with
    gotoFault := some "Timeout 30000ms exceeded",
    closeFault := fun _ => some "Target closed" }

/-- A page whose price block has one non-MSRP line item followed by an
MSRP line item. -/
def msrpDemoPage : Page :=
  { query := fun _ => none,
    queryAll := fun s =>
      if s = ".pms-PriceBlock li" then
        [ { textContent := "Your price $5", outerHTML := "", src := "" },
          { textContent := " MSRP  $10 ", outerHTML := "", src := "" } ]
      else [],
    href := "https://www.richelieu.com/p/1" }

theorem loginPhase_count_zero (env : Env) (creds : Option Credentials) (e : Event)
    (h1 : e ≠ Event.loginRichelieuCalled) (h2 : e ≠ Event.loginGenericCalled) :
    (loginPhase env creds).2.count e = 0 := by
  cases creds with
  | none => rfl
  | some c =>
    dsimp only [loginPhase]
    cases env.loginRichelieuFault <;> cases env.loginGenericFault <;>
      split_ifs <;> simp_all [List.count_cons, List.count_nil]

theorem loginPhase_events_cases (env : Env) (creds : Option Credentials) :
    (loginPhase env creds).2 = [] ∨
    (loginPhase env creds).2 = [Event.loginRichelieuCalled] ∨
    (loginPhase env creds).2 = [Event.loginGenericCalled] := by
  cases creds with
  | none => exact Or.inl rfl
  | some c =>
    dsimp only [loginPhase]
    cases env.loginRichelieuFault <;> cases env.loginGenericFault <;>
      split_ifs <;> simp

/-- Claim C3: the supplier classifier is a pure total function of the URL,
matching the richelieu, homedepot, lowes and amazon fragments in exactly
that priority order with first match winning, and yielding Generic when
nothing matches. -/
theorem detectSupplier_priority (url : String) :
    (jsIncludes url "richelieu.com" = true → detectSupplier url = "Richelieu") ∧
    (jsIncludes url "richelieu.com" = false →
      (jsIncludes url "homedepot.com" || jsIncludes url "homedepot.ca") = true →
      detectSupplier url = "Home Depot") ∧
    (jsIncludes url "richelieu.com" = false →
      (jsIncludes url "homedepot.com" || jsIncludes url "homedepot.ca") = false →
      (jsIncludes url "lowes.com" || jsIncludes url "lowes.ca") = true →
      detectSupplier url = lowesLabel) ∧
    (jsIncludes url "richelieu.com" = false →
      (jsIncludes url "homedepot.com" || jsIncludes url "homedepot.ca") = false →
      (jsIncludes url "lowes.com" || jsIncludes url "lowes.ca") = false →
      (jsIncludes url "amazon.com" || jsIncludes url "amazon.ca") = true →
      detectSupplier url = "Amazon") ∧
    (jsIncludes url "richelieu.com" = false →
      (jsIncludes url "homedepot.com" || jsIncludes url "homedepot.ca") = false →
      (jsIncludes url "lowes.com" || jsIncludes url "lowes.ca") = false →
      (jsIncludes url "amazon.com" || jsIncludes url "amazon.ca") = false →
      detectSupplier url = "Generic") := by
  refine ⟨?_, ?_, ?_, ?_, ?_⟩ <;> intros <;> simp_all [detectSupplier]

theorem detectSupplier_priority_witness :
    detectSupplier "https://www.homedepot.ca/p" = "Home Depot" :=
  (detectSupplier_priority "https://www.homedepot.ca/p").2.1 (by decide) (by decide)

/-- Claim C4: every extraction strategy evaluated against a well-formed
page with none of the expected elements yields a record whose optional
fields are all absent, and the Amazon strategy yields an absent sku on
every page. -/
theorem strategies_tolerate_empty_page (h : String) (page : Page) :
    ((scrapeRichelieu (emptyPage h)).name = none ∧
     (scrapeRichelieu (emptyPage h)).sku = none ∧
     (scrapeRichelieu (emptyPage h)).price = none ∧
     (scrapeRichelieu (emptyPage h)).msrp = none ∧
     (scrapeRichelieu (emptyPage h)).description = none ∧
     (scrapeRichelieu (emptyPage h)).brand = none ∧
     (scrapeRichelieu (emptyPage h)).imageUrl = none) ∧
    ((scrapeHomeDepot (emptyPage h)).name = none ∧
     (scrapeHomeDepot (emptyPage h)).sku = none ∧
     (scrapeHomeDepot (emptyPage h)).price = none ∧
     (scrapeHomeDepot (emptyPage h)).brand = none ∧
     (scrapeHomeDepot (emptyPage h)).imageUrl = none) ∧
    ((scrapeLowes (emptyPage h)).name = none ∧
     (scrapeLowes (emptyPage h)).sku = none ∧
     (scrapeLowes (emptyPage h)).price = none ∧
     (scrapeLowes (emptyPage h)).brand = none ∧
     (scrapeLowes (emptyPage h)).imageUrl = none) ∧
    ((scrapeAmazon (emptyPage h)).name = none ∧
     (scrapeAmazon (emptyPage h)).price = none ∧
     (scrapeAmazon (emptyPage h)).brand = none ∧
     (scrapeAmazon (emptyPage h)).imageUrl = none) ∧
    ((scrapeGeneric (emptyPage h)).name = none ∧
     (scrapeGeneric (emptyPage h)).sku = none ∧
     (scrapeGeneric (emptyPage h)).price = none ∧
     (scrapeGeneric (emptyPage h)).description = none ∧
     (scrapeGeneric (emptyPage h)).imageUrl = none) ∧
    (scrapeAmazon page).sku = none := by
  refine ⟨⟨rfl, rfl, rfl, rfl, rfl, rfl, rfl⟩, ⟨rfl, rfl, rfl, rfl, rfl⟩,
    ⟨rfl, rfl, rfl, rfl, rfl⟩, ⟨rfl, rfl, rfl, rfl⟩, ⟨rfl, rfl, rfl, rfl, rfl⟩, rfl⟩

/-- Claim C6: a request whose url field is missing or empty gets the
validation failure immediately; no browser session is created and no
screenshot is taken. -/
theorem missing_url_rejected_before_session (env : Env) (req : Request)
    (h : req.url = none ∨ req.url = some "") :
    (handleScrape env req).outcome = Outcome.badRequest ∧
    (handleScrape env req).events = [Event.responded] ∧
    Event.sessionCreated ∉ (handleScrape env req).events ∧
    Event.screenshotTaken ∉ (handleScrape env req).events := by
  have hurl : jsTruthy req.url = false := by
    rcases h with h | h <;> rw [h] <;> rfl
  simp [handleScrape, hurl]

theorem missing_url_rejected_before_session_witness :
    (handleScrape benignEnv emptyUrlReq).outcome = Outcome.badRequest ∧
    (handleScrape benignEnv emptyUrlReq).events = [Event.responded] ∧
    Event.sessionCreated ∉ (handleScrape benignEnv emptyUrlReq).events ∧
    Event.screenshotTaken ∉ (handleScrape benignEnv emptyUrlReq).events :=
  missing_url_rejected_before_session benignEnv emptyUrlReq (Or.inr rfl)

theorem getLast_cons_append {α : Type} (a : α) (l m : List α) (b : α) :
    (a :: (l ++ (b :: m))).getLast? = (b :: m).getLast? := by
  rw [show a :: (l ++ (b :: m)) = (a :: l) ++ (b :: m) from rfl]
  exact List.getLast?_append_of_ne_nil _ (List.cons_ne_nil _ _)

/-- Claim C1: for every request that reaches session creation (the launch
resolves) and whose close calls resolve, exactly one browser session is
created and exactly one is released, and the single response event comes
last — so the release happens before the outcome is returned — on every
exit path: success, absorbed login failure, navigation fault, extraction
fault and screenshot fault alike. -/
theorem session_created_and_released_once (env : Env) (req : Request)
    (hurl : jsTruthy req.url = true) (hauth : authOk env req = true)
    (hlaunch : env.launchFault = none) (hclose : ∀ i, env.closeFault i = none) :
    (handleScrape env req).events.count Event.sessionCreated = 1 ∧
    (handleScrape env req).events.count Event.sessionReleased = 1 ∧
    (handleScrape env req).events.count Event.responded = 1 ∧
    (handleScrape env req).events.getLast? = some Event.responded := by
  have h0 := hclose 0
  have hlp1 := loginPhase_count_zero env req.credentials Event.sessionCreated
    (by decide) (by decide)
  have hlp2 := loginPhase_count_zero env req.credentials Event.sessionReleased
    (by decide) (by decide)
  have hlp3 := loginPhase_count_zero env req.credentials Event.responded
    (by decide) (by decide)
  simp only [handleScrape, tryPhase, navPhase, hurl, hauth, hlaunch, h0]
  cases hc : env.newContextFault <;> cases hp : env.newPageFault <;>
    cases hg : env.gotoFault <;> cases he : env.evaluateFault <;>
    cases hs : env.screenshotFault <;>
    simp_all [List.count_append, List.count_cons, List.count_nil, getLast_cons_append]

theorem session_created_and_released_once_witness :
    (handleScrape benignEnv demoReq).events.count Event.sessionCreated = 1 ∧
    (handleScrape benignEnv demoReq).events.count Event.sessionReleased = 1 ∧
    (handleScrape benignEnv demoReq).events.count Event.responded = 1 ∧
    (handleScrape benignEnv demoReq).events.getLast? = some Event.responded :=
  session_created_and_released_once benignEnv demoReq (by decide) (by decide)
    rfl (fun _ => rfl)

/-- Claim C5: when credentials are absent, or username or password is
empty, neither login flow is invoked and the orchestrator proceeds from
session creation straight to navigation of the target URL. -/
theorem absent_credentials_skip_login (env : Env) (req : Request)
    (hurl : jsTruthy req.url = true) (hauth : authOk env req = true)
    (hlaunch : env.launchFault = none) (hctx : env.newContextFault = none)
    (hpage : env.newPageFault = none)
    (hcreds : req.credentials = none ∨
      ∃ c, req.credentials = some c ∧
        (jsTruthy c.username = false ∨ jsTruthy c.password = false)) :
    Event.loginRichelieuCalled ∉ (handleScrape env req).events ∧
    Event.loginGenericCalled ∉ (handleScrape env req).events ∧
    Event.navigationStarted ∈ (handleScrape env req).events := by
  have hlp : loginPhase env req.credentials = ([], []) := by
    rcases hcreds with h | ⟨c, hc, hcc⟩
    · rw [h]; rfl
    · rw [hc]; dsimp only [loginPhase]
      rcases hcc with h1 | h1 <;> simp [h1]
  simp only [handleScrape, tryPhase, navPhase, hurl, hauth, hlaunch, hctx, hpage, hlp]
  cases hg : env.gotoFault <;> cases he : env.evaluateFault <;>
    cases hs : env.screenshotFault <;> cases hc0 : env.closeFault 0 <;>
    cases hc1 : env.closeFault 1 <;> simp_all

theorem absent_credentials_skip_login_witness :
    Event.loginRichelieuCalled ∉ (handleScrape benignEnv anonReq).events ∧
    Event.loginGenericCalled ∉ (handleScrape benignEnv anonReq).events ∧
    Event.navigationStarted ∈ (handleScrape benignEnv anonReq).events :=
  absent_credentials_skip_login benignEnv anonReq (by decide) (by decide)
    rfl rfl rfl (Or.inl rfl)

/-- Claim C10: credentials with a non-empty username and password, but
with neither a Richelieu-matching supplier name nor a login URL, invoke no
login flow at all, and the orchestration events and outcome are exactly
those of the anonymous run. -/
theorem plain_credentials_invoke_no_flow (env : Env) (req : Request) (c : Credentials)
    (hurl : jsTruthy req.url = true) (hauth : authOk env req = true)
    (hlaunch : env.launchFault = none) (hctx : env.newContextFault = none)
    (hpage : env.newPageFault = none)
    (hcreds : req.credentials = some c)
    (huser : jsTruthy c.username = true) (hpass : jsTruthy c.password = true)
    (hrich : richelieuCredsBranch c = false) (hlogin : jsTruthy c.loginUrl = false) :
    Event.loginRichelieuCalled ∉ (handleScrape env req).events ∧
    Event.loginGenericCalled ∉ (handleScrape env req).events ∧
    Event.navigationStarted ∈ (handleScrape env req).events ∧
    (handleScrape env req).events =
      (handleScrape env { req with credentials := none }).events ∧
    (handleScrape env req).outcome =
      (handleScrape env { req with credentials := none }).outcome := by
  have hlp : loginPhase env req.credentials =
      ([LogEntry.loggingInto c.supplierName, LogEntry.loginComplete], []) := by
    rw [hcreds]; dsimp only [loginPhase]; simp [huser, hpass, hrich, hlogin]
  have hauth2 : authOk env { req with credentials := none } = true := hauth
  simp only [handleScrape, tryPhase, navPhase, hurl, hauth, hauth2, hlaunch, hctx, hpage, hlp,
    loginPhase]
  cases hg : env.gotoFault <;> cases he : env.evaluateFault <;>
    cases hs : env.screenshotFault <;> cases hc0 : env.closeFault 0 <;>
    cases hc1 : env.closeFault 1 <;> simp_all

theorem plain_credentials_invoke_no_flow_witness :
    Event.loginRichelieuCalled ∉ (handleScrape benignEnv reqUserA).events ∧
    Event.loginGenericCalled ∉ (handleScrape benignEnv reqUserA).events ∧
    Event.navigationStarted ∈ (handleScrape benignEnv reqUserA).events ∧
    (handleScrape benignEnv reqUserA).events =
      (handleScrape benignEnv { reqUserA with credentials := none }).events ∧
    (handleScrape benignEnv reqUserA).outcome =
      (handleScrape benignEnv { reqUserA with credentials := none }).outcome :=
  plain_credentials_invoke_no_flow benignEnv reqUserA credsUserA (by decide) (by decide)
    rfl rfl rfl rfl (by decide) (by decide) (by decide) (by decide)

/-- Claim C2: when the invoked login flow rejects, the error is absorbed
and logged, the request still proceeds to target navigation, and the
outcome kind equals that of the same run with the login step skipped — a
faulting login never surfaces as a request-level failure. -/
theorem login_fault_absorbed (env : Env) (req : Request) (c : Credentials) (m : String)
    (hurl : jsTruthy req.url = true) (hauth : authOk env req = true)
    (hlaunch : env.launchFault = none) (hctx : env.newContextFault = none)
    (hpage : env.newPageFault = none)
    (hcreds : req.credentials = some c)
    (huser : jsTruthy c.username = true) (hpass : jsTruthy c.password = true)
    (hbranch : (richelieuCredsBranch c = true ∧ env.loginRichelieuFault = some m) ∨
      (richelieuCredsBranch c = false ∧ jsTruthy c.loginUrl = true ∧
        env.loginGenericFault = some m)) :
    LogEntry.loginFailed m ∈ (handleScrape env req).log ∧
    Event.navigationStarted ∈ (handleScrape env req).events ∧
    Outcome.kind (handleScrape env req).outcome =
      Outcome.kind (handleScrape env { req with credentials := none }).outcome := by
  have hlp : loginPhase env req.credentials =
      ([LogEntry.loggingInto c.supplierName, LogEntry.loginFailed m],
        [Event.loginRichelieuCalled]) ∨
      loginPhase env req.credentials =
      ([LogEntry.loggingInto c.supplierName, LogEntry.loginFailed m],
        [Event.loginGenericCalled]) := by
    rw [hcreds]; dsimp only [loginPhase]
    rcases hbranch with ⟨h1, h2⟩ | ⟨h1, h2, h3⟩
    · left; simp [huser, hpass, h1, h2]
    · right; simp [huser, hpass, h1, h2, h3]
  have hauth2 : authOk env { req with credentials := none } = true := hauth
  have hlp0 : loginPhase env none = ([], []) := rfl
  rcases hlp with he | he <;>
  · simp only [handleScrape, tryPhase, navPhase, hurl, hauth, hauth2, hlaunch, hctx, hpage,
      he, hlp0]
    cases hg : env.gotoFault <;> cases hev : env.evaluateFault <;>
      cases hs : env.screenshotFault <;> cases hc0 : env.closeFault 0 <;>
      cases hc1 : env.closeFault 1 <;> simp_all [Outcome.kind]

theorem login_fault_absorbed_witness :
    LogEntry.loginFailed "boom" ∈ (handleScrape loginFaultEnv demoReq).log ∧
    Event.navigationStarted ∈ (handleScrape loginFaultEnv demoReq).events ∧
    Outcome.kind (handleScrape loginFaultEnv demoReq).outcome =
      Outcome.kind (handleScrape loginFaultEnv { demoReq with credentials := none }).outcome :=
  login_fault_absorbed loginFaultEnv demoReq demoCreds "boom" (by decide) (by decide)
    rfl rfl rfl rfl (by decide) (by decide) (Or.inl ⟨by decide, rfl⟩)

theorem hasPrefixList_mem (n l : List Char) (h : hasPrefixList n l = true) :
    ∀ c ∈ n, c ∈ l := by
  induction n generalizing l with
  | nil => intro c hc; cases hc
  | cons a as ih =>
    cases l with
    | nil => simp [hasPrefixList] at h
    | cons b bs =>
      simp only [hasPrefixList, Bool.and_eq_true, beq_iff_eq] at h
      intro c hc
      rcases List.mem_cons.mp hc with rfl | hc
      · exact List.mem_cons.mpr (Or.inl h.1)
      · exact List.mem_cons.mpr (Or.inr (ih bs h.2 c hc))

theorem hasSubList_mem (n l : List Char) (h : hasSubList n l = true) :
    ∀ c ∈ n, c ∈ l := by
  induction l with
  | nil =>
    cases n with
    | nil => intro c hc; cases hc
    | cons a as => simp [hasSubList, hasPrefixList] at h
  | cons b bs ih =>
    simp only [hasSubList, Bool.or_eq_true] at h
    rcases h with h | h
    · exact hasPrefixList_mem n (b :: bs) h
    · intro c hc; exact List.mem_cons.mpr (Or.inr (ih h c hc))

theorem isWs_toLower_fix (c : Char) (h : isWs c = true) : Char.toLower c = c := by
  simp only [isWs, Bool.or_eq_true, beq_iff_eq] at h
  rcases h with ((((rfl | rfl) | rfl) | rfl) | rfl) | rfl <;> decide

theorem jsTrim_ne_empty (s : String) (h : ∃ c ∈ s.data, isWs c = false) :
    jsTrim s ≠ "" := by
  rcases h with ⟨c, hc, hw⟩
  intro he
  have hdata : ((s.data.dropWhile isWs).reverse.dropWhile isWs).reverse = [] :=
    congrArg String.data he
  have h1 : (s.data.dropWhile isWs).reverse.dropWhile isWs = [] :=
    List.reverse_eq_nil_iff.mp hdata
  have h2 : ∀ x ∈ (s.data.dropWhile isWs).reverse, isWs x :=
    List.dropWhile_eq_nil_iff.mp h1
  have h3 : ∀ x ∈ s.data.dropWhile isWs, isWs x = true := by
    intro x hx; exact h2 x (List.mem_reverse.mpr hx)
  have h4 : isWs c = true := by
    have hsplit : c ∈ s.data.takeWhile isWs ++ s.data.dropWhile isWs := by
      rw [List.takeWhile_append_dropWhile]; exact hc
    rcases List.mem_append.mp hsplit with h5 | h5
    · exact List.mem_takeWhile_imp h5
    · exact h3 c h5
  rw [hw] at h4
  exact Bool.noConfusion h4

theorem includes_lower_gives_nonws (t kw : String) (d : Char)
    (hd : d ∈ kw.data) (hdw : isWs d = false)
    (h : jsIncludes (jsToLower t) kw = true) : ∃ c ∈ t.data, isWs c = false := by
  have hmem : d ∈ t.data.map Char.toLower :=
    hasSubList_mem kw.data (jsToLower t).data h d hd
  rcases List.mem_map.mp hmem with ⟨c, hc, hcd⟩
  cases hcase : isWs c with
  | false => exact ⟨c, hc, hcase⟩
  | true =>
    exfalso
    have hfix := isWs_toLower_fix c hcase
    rw [hfix] at hcd
    subst hcd
    rw [hcase] at hdw
    exact Bool.noConfusion hdw

theorem msrpMatches_nonempty_trim (e : Element) (h : msrpMatches e = true) :
    jsTrim e.textContent ≠ "" := by
  dsimp only [msrpMatches] at h
  rw [Bool.or_eq_true, Bool.or_eq_true] at h
  apply jsTrim_ne_empty
  rcases h with (h | h) | h
  · exact includes_lower_gives_nonws e.textContent "msrp" 'm' (by decide) (by decide) h
  · exact includes_lower_gives_nonws e.textContent "list" 'l' (by decide) (by decide) h
  · exact includes_lower_gives_nonws e.textContent "retail" 'r' (by decide) (by decide) h

theorem msrpScanLoop_eq_find (l : List Element) :
    msrpScanLoop l = (l.find? msrpMatches).map (fun e => jsTrim e.textContent) := by
  induction l with
  | nil => rfl
  | cons a l ih =>
    dsimp only [msrpScanLoop]
    rw [List.find?_cons]
    cases h : msrpMatches a <;> simp [h, ih]

theorem jsTruthy_some_of_ne (y : String) (h : y ≠ "") : jsTruthy (some y) = true := by
  simp [jsTruthy, h]

/-- Claim C8: Richelieu MSRP extraction is two-tier — the first price-block
line item whose lowercased text mentions msrp, list or retail supplies the
MSRP as its trimmed text, and only when no line item matches does the
extraction fall back to the fixed selector list. -/
theorem richelieu_msrp_two_tier (page : Page) :
    (∀ item, (page.queryAll ".pms-PriceBlock li").find? msrpMatches = some item →
      (scrapeRichelieu page).msrp = some (jsTrim item.textContent)) ∧
    ((page.queryAll ".pms-PriceBlock li").find? msrpMatches = none →
      (scrapeRichelieu page).msrp =
        getTextContent page ".list-price, .price-was, .msrp-price, .retail-price") := by
  constructor
  · intro item hfind
    have hne : page.queryAll ".pms-PriceBlock li" ≠ [] := by
      intro h0; rw [h0] at hfind; simp at hfind
    have hlen : (page.queryAll ".pms-PriceBlock li").length > 0 :=
      List.length_pos.mpr hne
    have hloop : msrpScanLoop (page.queryAll ".pms-PriceBlock li") =
        some (jsTrim item.textContent) := by
      rw [msrpScanLoop_eq_find, hfind]; rfl
    have htr : jsTrim item.textContent ≠ "" :=
      msrpMatches_nonempty_trim item (List.find?_some hfind)
    dsimp only [scrapeRichelieu]
    rw [if_pos hlen, hloop, if_pos (jsTruthy_some_of_ne _ htr)]
  · intro hfind
    have hloop : msrpScanLoop (page.queryAll ".pms-PriceBlock li") = none := by
      rw [msrpScanLoop_eq_find, hfind]; rfl
    have hmsrp0 : (if (page.queryAll ".pms-PriceBlock li").length > 0 then
        msrpScanLoop (page.queryAll ".pms-PriceBlock li") else none) = none := by
      split
      · exact hloop
      · rfl
    dsimp only [scrapeRichelieu]
    rw [hmsrp0]
    rfl

theorem richelieu_msrp_two_tier_witness :
    (scrapeRichelieu msrpDemoPage).msrp = some "MSRP  $10" :=
  (richelieu_msrp_two_tier msrpDemoPage).1
    { textContent := " MSRP  $10 ", outerHTML := "", src := "" } (by decide)

/-- Claim C7 counterexample: two requests that differ only in the username
inside the credentials — same presence, same length, all other fields
identical — produce different console logs, and the log carries the
username in cleartext.  The code logs the username (and supplier name and
login URL) in full; only the password is reduced to presence and
length. -/
theorem log_reveals_username_cleartext :
    reqUserA.url = reqUserB.url ∧
    reqUserA.authHeader = reqUserB.authHeader ∧
    credsUserA.supplierName = credsUserB.supplierName ∧
    credsUserA.loginUrl = credsUserB.loginUrl ∧
    credsUserA.password = credsUserB.password ∧
    jsTruthy credsUserA.username = jsTruthy credsUserB.username ∧
    optLen credsUserA.username = optLen credsUserB.username ∧
    LogEntry.requestSummary (some "https://example.org/p") true (some "Acme")
      (some "alicexx") true 7 none ∈ (handleScrape benignEnv reqUserA).log ∧
    (handleScrape benignEnv reqUserA).log ≠ (handleScrape benignEnv reqUserB).log := by
  decide

/-- Claim C7 (amended): the password never reaches the log in cleartext —
the log depends on the password only through its presence and its length,
so two requests that differ only in the password, with equal presence and
length, produce identical logs.  (The username, supplier name and login
URL, by contrast, are logged in full.) -/
theorem password_logged_presence_length_only (env : Env) (req : Request)
    (c : Credentials) (p1 p2 : Option String)
    (ht : jsTruthy p1 = jsTruthy p2) (hl : optLen p1 = optLen p2) :
    (handleScrape env { req with credentials := some { c with password := p1 } }).log =
    (handleScrape env { req with credentials := some { c with password := p2 } }).log := by
  simp only [handleScrape, tryPhase, navPhase, loginPhase, richelieuCredsBranch,
    authOk, Option.bind, Option.isSome]
  rw [ht, hl]

theorem password_logged_presence_length_only_witness :
    (handleScrape benignEnv
      { reqUserA with credentials := some { credsUserA with password := some "hunter2" } }).log =
    (handleScrape benignEnv
      { reqUserA with credentials := some { credsUserA with password := some "secret7" } }).log :=
  password_logged_presence_length_only benignEnv reqUserA credsUserA
    (some "hunter2") (some "secret7") rfl rfl

/-- Claim C9 (code bug): when navigation fails and the close call on the
failure path also rejects, the close rejection escapes the handler — the
caller never receives the failure envelope describing the original
navigation error, and the close fault is not logged.  The spec requires a
release fault to be logged and never to mask the primary outcome. -/
theorem close_fault_masks_primary_failure :
    (handleScrape c9Env anonReq).outcome = Outcome.unhandledRejection "Target closed" ∧
    Outcome.kind (handleScrape c9Env anonReq).outcome = OutcomeKind.hung ∧
    Event.sessionReleased ∉ (handleScrape c9Env anonReq).events ∧
    (handleScrape c9Env anonReq).outcome ≠
      Outcome.serverError "Timeout 30000ms exceeded" := by
  decide

end JobForge
